import Mathlib

/-!
Verification of the inside-bar breakout analysis core (`app7.py`).

Prices and timestamps are embedded as exact rationals (`ℚ`); a pandas
`NaN` produced by `shift`/`rolling`/division-by-zero is embedded as
`Option.none`.  Python's `round(x, n)` (banker's rounding) is embedded as
exact half-to-even rounding on rationals.  All definitions are executable.
-/

/-- One OHLC price bar.  The pandas frame's index (`datetime`) is the
`time` field; the `Open/High/Low/Close` columns keep their source names.
Volume is never read by the verified core and is omitted. -/
structure Bar where
  time : ℚ
  Open : ℚ
  High : ℚ
  Low : ℚ
  Close : ℚ
deriving DecidableEq

/-- `df['Body'] = abs(df['Close'] - df['Open'])`. -/
def Bar.body (b : Bar) : ℚ := |b.Close - b.Open|

/-- `df['Range'] = df['High'] - df['Low']`. -/
def Bar.range (b : Bar) : ℚ := b.High - b.Low

/-- `df['BodyRatio'] = df['Body'] / df['Range'].replace(0, np.nan)`:
`none` is the NaN produced for a zero-range bar. -/
def bodyRatio (b : Bar) : Option ℚ :=
  if b.range = 0 then none else some (b.body / b.range)

/-- Well-formed bar, as assumed by the spec's ingestion contract:
`high ≥ max(open, close)` and `low ≤ min(open, close)`. -/
def ValidBar (b : Bar) : Prop :=
  max b.Open b.Close ≤ b.High ∧ b.Low ≤ min b.Open b.Close

instance (b : Bar) : Decidable (ValidBar b) := by
  unfold ValidBar; infer_instance

/-- Every bar of the series is well formed. -/
def ValidBars (bars : List Bar) : Prop := ∀ b ∈ bars, ValidBar b

instance (bars : List Bar) : Decidable (ValidBars bars) := by
  unfold ValidBars; infer_instance

/-- Round a rational to the nearest integer, ties to even — the rounding
Python's built-in `round` applies. -/
def pyRoundInt (q : ℚ) : ℤ :=
  let f : ℤ := Int.fdiv q.num (q.den : ℤ)
  let r : ℚ := q - (f : ℚ)
  if r < 1/2 then f
  else if (1/2 : ℚ) < r then f + 1
  else if f % 2 = 0 then f else f + 1

/-- `round(q, n)` of Python, on exact rationals. -/
def pyRound (n : ℕ) (q : ℚ) : ℚ :=
  (pyRoundInt (q * 10 ^ n) : ℚ) / 10 ^ n

/-- True range of bar `i`:
`np.maximum(H-L, np.maximum(abs(H-C.shift(1)), abs(L-C.shift(1))))`.
At `i = 0` the shifted close is NaN and `np.maximum` propagates it. -/
def trAt (bars : List Bar) (i : ℕ) : Option ℚ :=
  match bars[i]? with
  | none => none
  | some b =>
    if i = 0 then none
    else
      match bars[i - 1]? with
      | none => none
      | some p =>
        some (max (b.High - b.Low) (max |b.High - p.Close| |b.Low - p.Close|))

/-- The 14 true ranges of the rolling window ending at bar `i`. -/
def atrWindow (bars : List Bar) (i : ℕ) : List (Option ℚ) :=
  (List.range 14).map fun k => trAt bars (i - 13 + k)

/-- `df['ATR'] = df['TR'].rolling(14).mean()`: the mean of the 14 true
ranges ending at `i`; NaN (`none`) while the window is incomplete or while
it still contains the NaN true range of bar 0. -/
def atrAt (bars : List Bar) (i : ℕ) : Option ℚ :=
  if 13 ≤ i ∧ i < bars.length then
    if (atrWindow bars i).all Option.isSome then
      some ((((atrWindow bars i).map fun o => o.getD 0).sum) / 14)
    else none
  else none

/-- Candle-anatomy label produced by `classify_wick_profile`. -/
inductive WickLabel
  | Doji
  | WicksBothSides
  | HeavyUpperWick
  | HeavyLowerWick
  | FullBody
  | SlightUpperWick
  | SlightLowerWick
  | Balanced
deriving DecidableEq

/-- The tuple returned by `classify_wick_profile`:
`(label, upper_pct, lower_pct, body_pct, is_bullish)`. -/
structure WickProfile where
  label : WickLabel
  upper_pct : ℚ
  lower_pct : ℚ
  body_pct : ℚ
  is_bullish : Bool
deriving DecidableEq

/-- `classify_wick_profile(open_p, close_p, high, low)` from the source.
The zero-range branch returns before any division, so the function is
total and never divides by a zero range. -/
def classify_wick_profile (open_p close_p high low : ℚ) : WickProfile :=
  let body_top := max open_p close_p
  let body_bot := min open_p close_p
  let total_range := high - low
  if total_range = 0 then
    ⟨WickLabel.Doji, 0, 0, 0, decide (open_p ≤ close_p)⟩
  else
    let upper_wick := high - body_top
    let lower_wick := body_bot - low
    let body := body_top - body_bot
    let upper_pct := upper_wick / total_range * 100
    let lower_pct := lower_wick / total_range * 100
    let body_pct := body / total_range * 100
    let is_bullish := decide (open_p < close_p)
    let label :=
      if body_pct < 10 then WickLabel.Doji
      else if upper_pct > 30 ∧ lower_pct > 30 then WickLabel.WicksBothSides
      else if upper_pct > lower_pct * 2 ∧ upper_pct > 20 then WickLabel.HeavyUpperWick
      else if lower_pct > upper_pct * 2 ∧ lower_pct > 20 then WickLabel.HeavyLowerWick
      else if body_pct > 75 then WickLabel.FullBody
      else if upper_pct > lower_pct + 5 then WickLabel.SlightUpperWick
      else if lower_pct > upper_pct + 5 then WickLabel.SlightLowerWick
      else WickLabel.Balanced
    ⟨label, pyRound 1 upper_pct, pyRound 1 lower_pct, pyRound 1 body_pct, is_bullish⟩

/-- Supply or demand tag of a zone. -/
inductive ZoneType
  | supply
  | demand
deriving DecidableEq

/-- One row of the frame built by `detect_zones`. -/
structure Zone where
  datetime : ℚ
  zone_top : ℚ
  zone_bottom : ℚ
  zone_type : ZoneType
  strength : ℚ
  origin_body : ℚ
  origin_range : ℚ
deriving DecidableEq

/-- Body of the `detect_zones` loop at index `i`: skip when ATR is NaN or
zero or the body is below `ATR * zone_atr_min`, otherwise emit a demand
zone `[Open, Low]` for a bullish origin and a supply zone `[High, Open]`
for a bearish one, with `strength = round(Body / ATR, 2)`. -/
def zoneAt (bars : List Bar) (zone_atr_min : ℚ) (i : ℕ) : Option Zone :=
  match bars[i]? with
  | none => none
  | some r =>
    match atrAt bars i with
    | none => none
    | some a =>
      if a = 0 ∨ r.body < a * zone_atr_min then none
      else if r.Close > r.Open then
        some ⟨r.time, r.Open, r.Low, ZoneType.demand, pyRound 2 (r.body / a),
              r.body, r.High - r.Low⟩
      else
        some ⟨r.time, r.High, r.Open, ZoneType.supply, pyRound 2 (r.body / a),
              r.body, r.High - r.Low⟩

/-- `detect_zones(df, zone_atr_min)`: the loop `for i in range(20, len(df))`
collecting the qualifying zones. -/
def detectZones (bars : List Bar) (zone_atr_min : ℚ) : List Zone :=
  (List.range' 20 (bars.length - 20)).filterMap (zoneAt bars zone_atr_min)

/-- The `zone` classification string of `classify_zone`. -/
inductive ZoneClass
  | neutral
  | supply
  | demand
  | contested
deriving DecidableEq

/-- The `zone_proximity_band` string of `classify_zone`. -/
inductive Band
  | NoZone
  | InsideZone
  | Touching
  | VeryClose
  | Near
  | Moderate
  | Far
deriving DecidableEq

/-- Distance of `price` to zone `z` as computed inside `classify_zone`'s
loop: `0` inside the zone, otherwise the smaller fractional distance to
the two edges. -/
def zone_distance (price : ℚ) (z : Zone) : ℚ :=
  if z.zone_bottom ≤ price ∧ price ≤ z.zone_top then 0
  else min (|price - z.zone_top| / price) (|price - z.zone_bottom| / price)

/-- Loop state of `classify_zone`: the two near flags, the running
minimum distance (`none` is the initial `inf`) and the nearest zone. -/
structure ScanState where
  near_s : Bool
  near_d : Bool
  min_dist : Option ℚ
  nearest : Option Zone
deriving DecidableEq

/-- One iteration of `classify_zone`'s `for _, z in recent.iterrows()`
loop: update nearest zone (strict improvement only, so the first of a tie
wins) and set the near-supply / near-demand flags when the distance is
within `proximity_pct`. -/
def scanStep (price proximity_pct : ℚ) (st : ScanState) (z : Zone) : ScanState :=
  let dist_pct := zone_distance price z
  let better : Bool :=
    match st.min_dist with
    | none => true
    | some m => decide (dist_pct < m)
  { near_s := st.near_s || (decide (dist_pct ≤ proximity_pct) &&
      decide (z.zone_type = ZoneType.supply)),
    near_d := st.near_d || (decide (dist_pct ≤ proximity_pct) &&
      decide (z.zone_type ≠ ZoneType.supply)),
    min_dist := if better then some dist_pct else st.min_dist,
    nearest := if better then some z else st.nearest }

/-- The result dict of `classify_zone`; fields absent in the default dict
are `none`. -/
structure ZoneResult where
  zone : ZoneClass
  zone_dist_pct : Option ℚ
  zone_strength : Option ℚ
  nearest_zone_type : Option ZoneType
  nearest_zone_top : Option ℚ
  nearest_zone_bottom : Option ℚ
  zone_proximity_band : Band
deriving DecidableEq

/-- The default `result` dict built at the top of `classify_zone`. -/
def emptyZoneResult : ZoneResult :=
  ⟨ZoneClass.neutral, none, none, none, none, none, Band.NoZone⟩

/-- The active-zone filter of `classify_zone`:
`zones_df[(zones_df['datetime'] >= dt - lookback) & (zones_df['datetime'] < dt)]`. -/
def recentZones (dt lookback_hours : ℚ) (zones_df : List Zone) : List Zone :=
  zones_df.filter fun z => decide (dt - lookback_hours ≤ z.datetime ∧ z.datetime < dt)

/-- The tail of `classify_zone` run on the filtered zones: the scan loop,
the classification from the near flags, the proximity band from the
minimal distance, and the nearest-zone fields.  With a nonempty `recent`
the loop always sets `min_dist` and `nearest`, so the `none` fallbacks
below are unreachable; they mirror the initial `inf` / `None` values. -/
def classifyRecent (price proximity_pct : ℚ) (recent : List Zone) : ZoneResult :=
  let st := recent.foldl (scanStep price proximity_pct)
    ⟨false, false, none, none⟩
  let zone_type : ZoneClass :=
    if st.near_s && st.near_d then ZoneClass.contested
    else if st.near_s then ZoneClass.supply
    else if st.near_d then ZoneClass.demand
    else ZoneClass.neutral
  let prox_band : Band :=
    match st.min_dist with
    | none => Band.NoZone
    | some m =>
      if m = 0 then Band.InsideZone
      else if m ≤ 1/1000 then Band.Touching
      else if m ≤ 3/1000 then Band.VeryClose
      else if m ≤ 6/1000 then Band.Near
      else if m ≤ 1/100 then Band.Moderate
      else Band.Far
  match st.nearest with
  | none =>
    { emptyZoneResult with zone := zone_type, zone_proximity_band := prox_band }
  | some nz =>
    { zone := zone_type,
      zone_dist_pct := st.min_dist.map fun m => pyRound 3 (m * 100),
      zone_strength := some nz.strength,
      nearest_zone_type := some nz.zone_type,
      nearest_zone_top := some nz.zone_top,
      nearest_zone_bottom := some nz.zone_bottom,
      zone_proximity_band := prox_band }

/-- `classify_zone(dt, price, zones_df, lookback_hours, proximity_pct)`:
the empty-frame early returns followed by the scan over the active
zones. -/
def classify_zone (dt price : ℚ) (zones_df : List Zone)
    (lookback_hours proximity_pct : ℚ) : ZoneResult :=
  if zones_df.isEmpty then emptyZoneResult
  else if (recentZones dt lookback_hours zones_df).isEmpty then emptyZoneResult
  else classifyRecent price proximity_pct (recentZones dt lookback_hours zones_df)

/-- Trade direction of a setup. -/
inductive Direction
  | LONG
  | SHORT
deriving DecidableEq

/-- The two mutually exclusive `first_hit` outcomes. -/
inductive Hit
  | SL
  | oneR
deriving DecidableEq

/-- The dict returned by the inner `candle_result` helper of
`detect_setups`.  Within `detect_setups` the candidate index satisfies
`i < len - 6`, so C4, C5 and C6 always exist and the `candle is None`
branch never runs; the embedding therefore takes the candle directly. -/
structure CandleRes where
  close_r : ℚ
  mfe_r : ℚ
  mae_r : ℚ
  followed : Bool
deriving DecidableEq

/-- `candle_result(candle, entry_px, risk_px, d)` from `detect_setups`. -/
def candle_result (candle : Bar) (entry_px risk_px : ℚ) (d : Direction) : CandleRes :=
  if d = Direction.LONG then
    let close_r := (candle.Close - entry_px) / risk_px
    let high_r := (candle.High - entry_px) / risk_px
    let low_r := (entry_px - candle.Low) / risk_px
    ⟨pyRound 3 close_r, pyRound 3 (max 0 high_r), pyRound 3 (max 0 low_r),
      decide (candle.Close > entry_px)⟩
  else
    let close_r := (entry_px - candle.Close) / risk_px
    let high_r := (entry_px - candle.Low) / risk_px
    let low_r := (candle.High - entry_px) / risk_px
    ⟨pyRound 3 close_r, pyRound 3 (max 0 high_r), pyRound 3 (max 0 low_r),
      decide (candle.Close < entry_px)⟩

/-- Stop-loss touch condition of the outcome loop:
`c['Low'] <= sl` for LONG, `c['High'] >= sl` for SHORT. -/
def slTouch (direction : Direction) (sl : ℚ) (c : Bar) : Bool :=
  if direction = Direction.LONG then decide (c.Low ≤ sl) else decide (c.High ≥ sl)

/-- 1R touch condition of the outcome loop:
`c['High'] >= entry + risk` for LONG, `c['Low'] <= entry - risk` for SHORT. -/
def oneRTouch (direction : Direction) (entry risk : ℚ) (c : Bar) : Bool :=
  if direction = Direction.LONG then decide (c.High ≥ entry + risk)
  else decide (c.Low ≤ entry - risk)

/-- 1.5R touch condition of the outcome loop. -/
def oneHalfRTouch (direction : Direction) (entry risk : ℚ) (c : Bar) : Bool :=
  if direction = Direction.LONG then decide (c.High ≥ entry + 3/2 * risk)
  else decide (c.Low ≤ entry - 3/2 * risk)

/-- 2R touch condition of the outcome loop. -/
def twoRTouch (direction : Direction) (entry risk : ℚ) (c : Bar) : Bool :=
  if direction = Direction.LONG then decide (c.High ≥ entry + 2 * risk)
  else decide (c.Low ≤ entry - 2 * risk)

/-- Mutable state of the outcome-simulation loop of `detect_setups`. -/
structure SimState where
  hit_1r : Bool
  hit_15r : Bool
  hit_2r : Bool
  hit_sl : Bool
  first_hit : Option Hit
  mfe : ℚ
  mae : ℚ
deriving DecidableEq

/-- One iteration of `for j in range(i+3, min(i+23, len(df)))`: update
excursions, then check stop-loss before 1R exactly as the source does, so
on a candle touching both the stop-loss claims `first_hit`. -/
def simStep (direction : Direction) (entry sl risk : ℚ)
    (st : SimState) (c : Bar) : SimState :=
  let fav := if direction = Direction.LONG then (c.High - entry) / risk
    else (entry - c.Low) / risk
  let adv := if direction = Direction.LONG then (entry - c.Low) / risk
    else (c.High - entry) / risk
  let slT := slTouch direction sl c
  let oneT := oneRTouch direction entry risk c
  let fh1 := if slT && !st.hit_sl && st.first_hit.isNone
    then some Hit.SL else st.first_hit
  let fh2 := if oneT && !st.hit_1r && fh1.isNone
    then some Hit.oneR else fh1
  { hit_1r := st.hit_1r || oneT,
    hit_15r := st.hit_15r || oneHalfRTouch direction entry risk c,
    hit_2r := st.hit_2r || twoRTouch direction entry risk c,
    hit_sl := st.hit_sl || slT,
    first_hit := fh2,
    mfe := max st.mfe fav,
    mae := max st.mae adv }

/-- The whole outcome-simulation loop, from the initial
`hit_1r = hit_15r = hit_2r = hit_sl = False; first_hit = None; mfe = mae = 0`. -/
def simulate (direction : Direction) (entry sl risk : ℚ)
    (window : List Bar) : SimState :=
  window.foldl (simStep direction entry sl risk)
    ⟨false, false, false, false, none, 0, 0⟩

/-- Index of the chronologically first bar of the list satisfying `p`. -/
def firstTouchIdx (p : Bar → Bool) : List Bar → Option ℕ
  | [] => none
  | c :: w => if p c then some 0 else (firstTouchIdx p w).map fun j => j + 1

/-- Modelled from the spec: the first-hit label records whichever of
stop-loss touch and 1R touch occurs on the chronologically earlier candle
of the window, the stop-loss winning a same-candle tie. -/
def specFirstHit (direction : Direction) (entry sl risk : ℚ)
    (window : List Bar) : Option Hit :=
  match firstTouchIdx (slTouch direction sl) window,
        firstTouchIdx (oneRTouch direction entry risk) window with
  | none, none => none
  | some _, none => some Hit.SL
  | none, some _ => some Hit.oneR
  | some a, some b => if a ≤ b then some Hit.SL else some Hit.oneR

/-- The fields of the Setup record that the verified claims reference.
The source dict additionally carries verbatim copies of the C1–C6 OHLC
values, wick profiles and follow-through fields, which no verified claim
reads; those pure copies are not modelled. -/
structure Setup where
  datetime : ℚ
  direction : Direction
  entry_price : ℚ
  stop_loss : ℚ
  risk : ℚ
  c2_high : ℚ
  c2_low : ℚ
  c3_close : ℚ
  c4_close_r : ℚ
  hit_1r : Bool
  hit_15r : Bool
  hit_2r : Bool
  hit_sl : Bool
  first_hit : Option Hit
  win_1r : Bool
  max_favorable_r : ℚ
  max_adverse_r : ℚ
deriving DecidableEq

/-- `sl = c2['Low'] if direction=='LONG' else c2['High']`. -/
def setupSL (c2 : Bar) (d : Direction) : ℚ :=
  if d = Direction.LONG then c2.Low else c2.High

/-- `risk = entry - sl if direction=='LONG' else sl - entry`, with the
entry at C3's close. -/
def setupRisk (c2 c3 : Bar) (d : Direction) : ℚ :=
  if d = Direction.LONG then c3.Close - setupSL c2 d
  else setupSL c2 d - c3.Close

/-- The outcome-simulation window `range(i+3, min(i+23, len(df)))`. -/
def setupWindow (bars : List Bar) (i : ℕ) : List Bar :=
  (bars.drop (i + 3)).take 20

/-- The state of the outcome loop after the whole window of anchor `i`. -/
def setupSim (bars : List Bar) (i : ℕ) (c2 c3 : Bar) (d : Direction) : SimState :=
  simulate d c3.Close (setupSL c2 d) (setupRisk c2 c3 d) (setupWindow bars i)

/-- Construction of the Setup record once every gate has passed, exactly
as the tail of the `detect_setups` loop body: entry at C3 close, stop at
the opposite end of C2, outcome simulation over
`range(i+3, min(i+23, len(df)))`, and the win label
`win = hit_1r if first_hit=='1R' else (False if first_hit=='SL' else
(c4_res['close_r'] is not None and c4_res['close_r'] > 0))`. -/
def mkSetup (bars : List Bar) (i : ℕ) (c1 c2 c3 c4 : Bar)
    (d : Direction) : Setup :=
  { datetime := c1.time, direction := d, entry_price := c3.Close,
    stop_loss := setupSL c2 d, risk := setupRisk c2 c3 d,
    c2_high := c2.High, c2_low := c2.Low, c3_close := c3.Close,
    c4_close_r := (candle_result c4 c3.Close (setupRisk c2 c3 d) d).close_r,
    hit_1r := (setupSim bars i c2 c3 d).hit_1r,
    hit_15r := (setupSim bars i c2 c3 d).hit_15r,
    hit_2r := (setupSim bars i c2 c3 d).hit_2r,
    hit_sl := (setupSim bars i c2 c3 d).hit_sl,
    first_hit := (setupSim bars i c2 c3 d).first_hit,
    win_1r :=
      match (setupSim bars i c2 c3 d).first_hit with
      | some Hit.oneR => (setupSim bars i c2 c3 d).hit_1r
      | some Hit.SL => false
      | none =>
        decide (0 < (candle_result c4 c3.Close (setupRisk c2 c3 d) d).close_r),
    max_favorable_r := (setupSim bars i c2 c3 d).mfe,
    max_adverse_r := (setupSim bars i c2 c3 d).mae }

/-- Body of the `detect_setups` candidate loop at anchor index `i`: the
C1 big-candle gates (NaN body ratio passes the `<`-rejection, as NaN
comparisons are false in Python), the C2 inside-bar gate, the C3
close-beyond-C2 breakout gate and the positive-risk gate. -/
def setupAt (bars : List Bar) (body_ratio_thresh atr_mult : ℚ) (i : ℕ) :
    Option Setup :=
  match bars[i]?, bars[i+1]?, bars[i+2]?, bars[i+3]? with
  | some c1, some c2, some c3, some c4 =>
    match atrAt bars i with
    | none => none
    | some atr =>
      if atr = 0 then none
      else if (match bodyRatio c1 with
        | some br => decide (br < body_ratio_thresh)
        | none => false) then none
      else if c1.body < atr * atr_mult then none
      else if ¬ (c2.High ≤ c1.High ∧ c1.Low ≤ c2.Low) then none
      else
        match (if c2.High < c3.Close then some Direction.LONG
          else if c3.Close < c2.Low then some Direction.SHORT
          else none) with
        | none => none
        | some direction =>
          if setupRisk c2 c3 direction ≤ 0 then none
          else some (mkSetup bars i c1 c2 c3 c4 direction)
  | _, _, _, _ => none

/-- `detect_setups(df, body_ratio_thresh, atr_mult)`: empty for fewer
than 20 bars, otherwise the candidate loop
`for i in range(14, len(df) - 6)`. -/
def detectSetups (bars : List Bar) (body_ratio_thresh atr_mult : ℚ) :
    List Setup :=
  if bars.length < 20 then []
  else (List.range' 14 (bars.length - 20)).filterMap
    (setupAt bars body_ratio_thresh atr_mult)

/-- The diagnostic funnel dict of `detect_setups_with_diagnostics`. -/
structure Diag where
  total_scanned : ℕ
  pass_body_ratio : ℕ
  pass_body_atr : ℕ
  pass_both_c1 : ℕ
  pass_inside_bar : ℕ
  pass_c3_breakout : ℕ
  pass_valid_risk : ℕ
deriving DecidableEq

/-- The all-zero funnel the diagnostics start from. -/
def initDiag : Diag := ⟨0, 0, 0, 0, 0, 0, 0⟩

/-- Body of the diagnostics loop of `detect_setups_with_diagnostics` at
candidate index `i`.  The gates are re-evaluated independently of
`detect_setups`; note `br_pass` is `BodyRatio >= thresh`, which is false
for the NaN body ratio of a zero-range C1.  The `none` index fallbacks
mirror positions `iloc` can never be asked for within the loop range. -/
def diagStep (bars : List Bar) (body_ratio_thresh atr_mult : ℚ)
    (d : Diag) (i : ℕ) : Diag :=
  match bars[i]? with
  | none => d
  | some c1 =>
    match atrAt bars i with
    | none => d
    | some a =>
      if a = 0 then d
      else
        let d1 := { d with total_scanned := d.total_scanned + 1 }
        let br_pass : Bool :=
          match bodyRatio c1 with
          | some br => decide (br ≥ body_ratio_thresh)
          | none => false
        let atr_pass : Bool := decide (c1.body ≥ a * atr_mult)
        let d2 := if br_pass
          then { d1 with pass_body_ratio := d1.pass_body_ratio + 1 } else d1
        let d3 := if atr_pass
          then { d2 with pass_body_atr := d2.pass_body_atr + 1 } else d2
        if ¬ (br_pass = true ∧ atr_pass = true) then d3
        else
          let d4 := { d3 with pass_both_c1 := d3.pass_both_c1 + 1 }
          match bars[i+1]? with
          | none => d4
          | some c2 =>
            if ¬ (c2.High ≤ c1.High ∧ c1.Low ≤ c2.Low) then d4
            else
              let d5 := { d4 with pass_inside_bar := d4.pass_inside_bar + 1 }
              match bars[i+2]? with
              | none => d5
              | some c3 =>
                match (if c2.High < c3.Close then some Direction.LONG
                  else if c3.Close < c2.Low then some Direction.SHORT
                  else none) with
                | none => d5
                | some direction =>
                  let d6 := { d5 with pass_c3_breakout := d5.pass_c3_breakout + 1 }
                  if 0 < setupRisk c2 c3 direction
                  then { d6 with pass_valid_risk := d6.pass_valid_risk + 1 }
                  else d6

/-- `detect_setups_with_diagnostics(df, body_ratio_thresh, atr_mult)`:
the independent funnel pass followed by the call to `detect_setups`. -/
def detectSetupsWithDiagnostics (bars : List Bar)
    (body_ratio_thresh atr_mult : ℚ) : List Setup × Diag :=
  if bars.length < 20 then ([], initDiag)
  else
    let diag := (List.range' 14 (bars.length - 20)).foldl
      (diagStep bars body_ratio_thresh atr_mult) initDiag
    (detectSetups bars body_ratio_thresh atr_mult, diag)

/-- The zone-classification pass of `enrich_setups`: for every setup row
`classify_zone` is invoked on the setup's datetime and entry price with
`proximity_pct = zone_proximity / 100`.  The session, news, calendar and
cumulative-P&L enrichment that follows in the source mutates fields no
verified claim references and is not modelled. -/
def enrich_setups (sdf : List Setup) (zones_df : List Zone)
    (zone_lookback zone_proximity : ℚ) : List ZoneResult :=
  sdf.map fun r =>
    classify_zone r.datetime r.entry_price zones_df zone_lookback
      (zone_proximity / 100)

/-- A flat series of `n` bars (each `O=C=10`, `H=10.5`, `L=9.5`), whose
true range is 1 from index 1 on. -/
def constBars (n : ℕ) : List Bar :=
  (List.range n).map fun k => ⟨(k : ℚ), 10, 21/2, 19/2, 10⟩

/-- 21 bars: 14 flat warm-up bars, then a big bullish C1 at index 14, an
inside bar C2, a LONG breakout C3, and a window in which 1R is reached at
index 18 without the stop ever being touched. -/
def exBars : List Bar :=
  constBars 14 ++
    [⟨14, 10, 12, 10, 12⟩,
     ⟨15, 11, 59/5, 21/2, 23/2⟩,
     ⟨16, 23/2, 63/5, 57/5, 25/2⟩,
     ⟨17, 25/2, 127/10, 62/5, 63/5⟩,
     ⟨18, 63/5, 73/5, 25/2, 29/2⟩,
     ⟨19, 29/2, 73/5, 72/5, 29/2⟩,
     ⟨20, 29/2, 73/5, 72/5, 29/2⟩]

/-- `exBars` with C3 closing exactly at C2's high (`59/5`): the breakout
gate must reject the anchor. -/
def exBarsBoundary : List Bar :=
  constBars 14 ++
    [⟨14, 10, 12, 10, 12⟩,
     ⟨15, 11, 59/5, 21/2, 23/2⟩,
     ⟨16, 23/2, 12, 57/5, 59/5⟩,
     ⟨17, 25/2, 127/10, 62/5, 63/5⟩,
     ⟨18, 63/5, 73/5, 25/2, 29/2⟩,
     ⟨19, 29/2, 73/5, 72/5, 29/2⟩,
     ⟨20, 29/2, 73/5, 72/5, 29/2⟩]

/-- 21 identical bars with body ratio 1/2 and body 1/2: with
`body_ratio_thresh = 13/20` and `atr_mult = 1/2` the single scanned
candidate fails the ratio gate but passes the body-vs-ATR gate. -/
def exBarsFunnel : List Bar :=
  (List.range 21).map fun k => ⟨(k : ℚ), 10, 11, 10, 21/2⟩

/-- 20 flat bars and then, at index 20, a bullish bar whose body `39/25`
equals exactly `ATR * 1.5` (`ATR = 26/25`), so the emitted zone's
strength is exactly the configured minimum `3/2`. -/
def exZBars : List Bar :=
  constBars 20 ++ [⟨20, 10, 289/25, 10, 289/25⟩]

/-- The unique setup detected on `exBars` with thresholds
`body_ratio_thresh = 13/20`, `atr_mult = 13/10`. -/
def exSetup : Setup :=
  ⟨14, Direction.LONG, 25/2, 21/2, 2, 59/5, 21/2, 25/2, 1/20,
    true, false, false, false, some Hit.oneR, true, 21/20, 1/20⟩
/-- The demand-zone emitted on `exZBars` with strength exactly the
configured minimum `3/2`. -/
def exZone : Zone := ⟨20, 10, 10, ZoneType.demand, 3/2, 39/25, 39/25⟩

/-- A fold preserves any invariant its step preserves. -/
theorem foldl_inv {α β : Type} (f : β → α → β) (P : β → Prop)
    (hstep : ∀ b a, P b → P (f b a)) :
    ∀ (l : List α) (b : β), P b → P (l.foldl f b)
  | [], _, hb => hb
  | a :: l, b, hb => foldl_inv f P hstep l (f b a) (hstep b a hb)

/-- The true range of any bar after the first exists. -/
theorem trAt_isSome_of_pos (bars : List Bar) (j : ℕ)
    (h1 : 1 ≤ j) (h2 : j < bars.length) : (trAt bars j).isSome := by
  unfold trAt
  rw [List.getElem?_eq_getElem h2]
  have hj0 : j ≠ 0 := by omega
  have h2' : j - 1 < bars.length := by omega
  rw [List.getElem?_eq_getElem h2']
  simp [hj0]

/-- The true range of the first bar is NaN. -/
theorem trAt_zero (bars : List Bar) : trAt bars 0 = none := by
  unfold trAt
  cases bars[0]? <;> simp

/-- A defined true range is nonnegative. -/
theorem trAt_nonneg (bars : List Bar) (j : ℕ) (t : ℚ)
    (h : trAt bars j = some t) : 0 ≤ t := by
  unfold trAt at h
  rcases hb : bars[j]? with _ | b <;> rw [hb] at h
  · exact absurd h (by simp)
  · by_cases hj : j = 0 <;> simp [hj] at h
    rcases hp : bars[j-1]? with _ | p <;> rw [hp] at h
    · exact absurd h (by simp)
    · simp only [Option.some.injEq] at h
      subst h
      exact le_trans (abs_nonneg _) (le_trans (le_max_left _ _) (le_max_right _ _))

/-- A defined ATR value is nonnegative. -/
theorem atrAt_nonneg (bars : List Bar) (i : ℕ) (a : ℚ)
    (h : atrAt bars i = some a) : 0 ≤ a := by
  unfold atrAt at h
  split at h
  · split at h
    · simp only [Option.some.injEq] at h
      subst h
      refine div_nonneg (List.sum_nonneg ?_) (by norm_num)
      intro x hx
      rcases List.mem_map.mp hx with ⟨o, ho, hxo⟩
      subst hxo
      rcases List.mem_map.mp (by simpa [atrWindow] using ho : o ∈
        (List.range 14).map fun k => trAt bars (i - 13 + k)) with ⟨k, _, hko⟩
      subst hko
      rcases ht : trAt bars (i - 13 + k) with _ | t
      · simp
      · simpa using trAt_nonneg bars _ t ht
    · exact absurd h (by simp)
  · exact absurd h (by simp)

/-- ATR is NaN exactly on the first 14 bars (indices `0`–`13`) and beyond
the series. -/
theorem atrAt_eq_none_iff (bars : List Bar) (i : ℕ) :
    atrAt bars i = none ↔ i < 14 ∨ bars.length ≤ i := by
  unfold atrAt
  split
  · next hcond =>
    by_cases h14 : 14 ≤ i
    · have hall : (atrWindow bars i).all Option.isSome = true := by
        rw [List.all_eq_true]
        intro o ho
        rcases List.mem_map.mp (by simpa [atrWindow] using ho : o ∈
            (List.range 14).map fun k => trAt bars (i - 13 + k)) with ⟨k, hk, hko⟩
        subst hko
        have hk14 : k < 14 := List.mem_range.mp hk
        exact trAt_isSome_of_pos bars _ (by omega) (by omega)
      rw [if_pos hall]
      simp
      omega
    · have hi13 : i = 13 := by omega
      subst hi13
      have hnone : trAt bars (13 - 13 + 0) = none := trAt_zero bars
      have hall : (atrWindow bars 13).all Option.isSome = false := by
        rw [Bool.eq_false_iff]
        intro hall
        rw [List.all_eq_true] at hall
        have h0 : trAt bars (13 - 13 + 0) ∈ atrWindow bars 13 := by
          unfold atrWindow
          exact List.mem_map.mpr ⟨0, by simp, rfl⟩
        have := hall _ h0
        rw [hnone] at this
        exact absurd this (by simp)
      rw [if_neg (by rw [hall]; exact Bool.false_ne_true)]
      simp
  · next hcond =>
    simp only [true_iff]
    omega

/-- Claim C4 (amended): ATR is unavailable (`none`, never zero) exactly on
the first 14 bars of the series — not 13 as claimed, since the rolling
14-mean also absorbs the NaN true range of bar 0 — and a bar whose ATR is
unavailable or zero is excluded from candidacy as a pattern anchor in
`detect_setups` and as a zone origin in `detect_zones`. -/
theorem atr_warmup_and_exclusion (bars : List Bar) (i : ℕ) :
    (atrAt bars i = none ↔ i < 14 ∨ bars.length ≤ i) ∧
    (∀ body_ratio_thresh atr_mult : ℚ,
      (atrAt bars i = none ∨ atrAt bars i = some 0) →
      setupAt bars body_ratio_thresh atr_mult i = none) ∧
    (∀ zone_atr_min : ℚ,
      (atrAt bars i = none ∨ atrAt bars i = some 0) →
      zoneAt bars zone_atr_min i = none) := by
  refine ⟨atrAt_eq_none_iff bars i, ?_, ?_⟩
  · intro brt am h
    unfold setupAt
    rcases h1 : bars[i]? with _ | c1 <;>
      rcases h2 : bars[i+1]? with _ | c2 <;>
        rcases h3 : bars[i+2]? with _ | c3 <;>
          rcases h4 : bars[i+3]? with _ | c4 <;>
            simp <;> rcases h with h | h <;> simp [h]
  · intro zmin h
    unfold zoneAt
    rcases h1 : bars[i]? with _ | r <;> simp
    rcases h with h | h <;> simp [h]

/-- Claim C4's original count is wrong on the code: in a 15-bar series the
bar at index 13 (not among the first 13 bars) still has undefined ATR. -/
theorem atr_not_defined_at_bar_14 :
    ¬ (∀ i < (constBars 15).length, (atrAt (constBars 15) i = none ↔ i < 13)) := by
  decide!

/-- Witness for C4 at a concrete series: index 14 of a 21-bar series has a
defined ATR, and the exclusion conclusions evaluated at index 5 (where ATR
is `none`). -/
theorem atr_warmup_and_exclusion_witness :
    (atrAt exBars 5 = none ↔ 5 < 14 ∨ exBars.length ≤ 5) ∧
    setupAt exBars (13/20) (13/10) 5 = none ∧
    zoneAt exBars (3/2) 5 = none :=
  ⟨(atr_warmup_and_exclusion exBars 5).1,
   (atr_warmup_and_exclusion exBars 5).2.1 (13/20) (13/10) (Or.inl (by decide!)),
   (atr_warmup_and_exclusion exBars 5).2.2 (3/2) (Or.inl (by decide!))⟩

/-- Claim C9: a bar with `high = low` is classified as a Doji with
upper-wick, lower-wick and body percentages all zero; the zero-range
branch returns before any division, so no division-by-zero fault can
occur (the embedding is a total function). -/
theorem wick_profile_zero_range_doji (open_p close_p high low : ℚ)
    (h : high = low) :
    classify_wick_profile open_p close_p high low =
      ⟨WickLabel.Doji, 0, 0, 0, decide (open_p ≤ close_p)⟩ := by
  unfold classify_wick_profile
  subst h
  simp

/-- Witness for C9 on the concrete zero-range bar `O=5, C=7, H=L=6`. -/
theorem wick_profile_zero_range_doji_witness :
    classify_wick_profile 5 7 6 6 =
      ⟨WickLabel.Doji, 0, 0, 0, decide ((5:ℚ) ≤ 7)⟩ :=
  wick_profile_zero_range_doji 5 7 6 6 rfl

/-- Claim C10: a series shorter than 20 bars yields empty setup and zone
collections (and an empty setup list from the diagnostics wrapper), not
an error — the embedding returns `[]` on the short-series branches. -/
theorem short_series_empty (bars : List Bar)
    (body_ratio_thresh atr_mult zone_atr_min : ℚ) (h : bars.length < 20) :
    detectSetups bars body_ratio_thresh atr_mult = [] ∧
    detectZones bars zone_atr_min = [] ∧
    (detectSetupsWithDiagnostics bars body_ratio_thresh atr_mult).1 = [] := by
  have hz : bars.length - 20 = 0 := Nat.sub_eq_zero_of_le (le_of_lt h)
  refine ⟨?_, ?_, ?_⟩
  · unfold detectSetups
    rw [if_pos h]
  · unfold detectZones
    rw [hz]
    rfl
  · unfold detectSetupsWithDiagnostics
    rw [if_pos h]

/-- Witness for C10 on a concrete 5-bar series. -/
theorem short_series_empty_witness :
    detectSetups (constBars 5) (13/20) (13/10) = [] ∧
    detectZones (constBars 5) (3/2) = [] ∧
    (detectSetupsWithDiagnostics (constBars 5) (13/20) (13/10)).1 = [] :=
  short_series_empty (constBars 5) (13/20) (13/10) (3/2) (by decide!)

/-- Claim C6: `classify_zone` treats a zone as active exactly on the
half-open window `[dt − lookback, dt)`: a zone whose origin equals the
query time is excluded (the whole result is the empty default), while a
zone whose origin equals `dt − lookback` is included (it becomes the
nearest zone). -/
theorem zone_lookback_half_open (dt price lookback_hours proximity_pct : ℚ)
    (z : Zone) (hlb : 0 < lookback_hours) :
    (z.datetime = dt →
      classify_zone dt price [z] lookback_hours proximity_pct =
        emptyZoneResult) ∧
    (z.datetime = dt - lookback_hours →
      (classify_zone dt price [z] lookback_hours proximity_pct).nearest_zone_type
        = some z.zone_type) := by
  constructor
  · intro h
    have hr : recentZones dt lookback_hours [z] = [] := by
      simp [recentZones, h]
    unfold classify_zone
    rw [hr]
    simp
  · intro h
    have hr : recentZones dt lookback_hours [z] = [z] := by
      simp [recentZones, h, sub_lt_self dt hlb]
    unfold classify_zone
    rw [hr]
    simp [classifyRecent, scanStep]

/-- Witness for C6 at concrete inputs: a zone stamped at the query time
100 is inactive, one stamped at `100 − 50` is active and nearest. -/
theorem zone_lookback_half_open_witness :
    classify_zone 100 10 [⟨100, 11, 9, ZoneType.demand, 2, 1, 2⟩] 50 (3/1000) =
      emptyZoneResult ∧
    (classify_zone 100 10 [⟨50, 11, 9, ZoneType.demand, 2, 1, 2⟩] 50
      (3/1000)).nearest_zone_type = some ZoneType.demand :=
  ⟨(zone_lookback_half_open 100 10 50 (3/1000)
      ⟨100, 11, 9, ZoneType.demand, 2, 1, 2⟩ (by norm_num)).1 rfl,
   (zone_lookback_half_open 100 10 50 (3/1000)
      ⟨50, 11, 9, ZoneType.demand, 2, 1, 2⟩ (by norm_num)).2 (by norm_num)⟩

/-- Claim C8: `enrich_setups` divides its `zone_proximity` argument by
100 before handing it to `classify_zone` as `proximity_pct`, and
`classify_zone` compares `proximity_pct` against fractional price
distances (an active zone makes the classification non-neutral exactly
when its fractional distance is at most `zone_proximity / 100`), so the
enricher's parameter is in percent while the matcher's is a fraction. -/
theorem enrich_proximity_percent_units (sdf : List Setup)
    (zones_df : List Zone) (zone_lookback zone_proximity dt price : ℚ)
    (z : Zone) (h1 : dt - zone_lookback ≤ z.datetime) (h2 : z.datetime < dt) :
    enrich_setups sdf zones_df zone_lookback zone_proximity =
      (sdf.map fun r => classify_zone r.datetime r.entry_price zones_df
        zone_lookback (zone_proximity / 100)) ∧
    ((classify_zone dt price [z] zone_lookback (zone_proximity / 100)).zone ≠
        ZoneClass.neutral ↔
      zone_distance price z ≤ zone_proximity / 100) := by
  refine ⟨rfl, ?_⟩
  have hr : recentZones dt zone_lookback [z] = [z] := by
    simp only [recentZones, List.filter]
    rw [decide_eq_true ⟨h1, h2⟩]
  unfold classify_zone
  rw [hr]
  by_cases hd : zone_distance price z ≤ zone_proximity / 100 <;>
    rcases htype : z.zone_type <;>
      simp [classifyRecent, scanStep, hd, htype]

/-- Witness for C8 on one concrete setup and one concrete active zone. -/
theorem enrich_proximity_percent_units_witness :
    enrich_setups [exSetup] [⟨50, 21/2, 41/4, ZoneType.supply, 2, 1, 1⟩]
        720 3 =
      ([exSetup].map fun r => classify_zone r.datetime r.entry_price
        [⟨50, 21/2, 41/4, ZoneType.supply, 2, 1, 1⟩] 720 (3 / 100)) ∧
    ((classify_zone 100 10 [⟨50, 21/2, 41/4, ZoneType.supply, 2, 1, 1⟩]
        720 (3 / 100)).zone ≠ ZoneClass.neutral ↔
      zone_distance 10 ⟨50, 21/2, 41/4, ZoneType.supply, 2, 1, 1⟩ ≤ 3 / 100) :=
  enrich_proximity_percent_units [exSetup]
    [⟨50, 21/2, 41/4, ZoneType.supply, 2, 1, 1⟩] 720 3 100 10
    ⟨50, 21/2, 41/4, ZoneType.supply, 2, 1, 1⟩ (by norm_num) (by norm_num)


/-- Claim C7 (amended): every zone emitted by `detect_zones` on a series
of well-formed bars has `top ≥ bottom`, and its stored strength is the
origin body divided by the concurrent ATR rounded to two decimals, where
that unrounded ratio is at least — not strictly greater than — the
configured minimum. -/
theorem zone_bounds_and_strength (bars : List Bar) (zone_atr_min : ℚ)
    (hv : ValidBars bars) :
    ∀ z ∈ detectZones bars zone_atr_min,
      z.zone_bottom ≤ z.zone_top ∧
      ∃ i r a, bars[i]? = some r ∧ atrAt bars i = some a ∧ 0 < a ∧
        zone_atr_min ≤ r.body / a ∧ z.strength = pyRound 2 (r.body / a) := by
  intro z hz
  rcases List.mem_filterMap.mp hz with ⟨i, _, hsome⟩
  unfold zoneAt at hsome
  rcases hb : bars[i]? with _ | r
  · simp [hb] at hsome
  rcases ha : atrAt bars i with _ | a
  · simp [hb, ha] at hsome
  simp only [hb, ha] at hsome
  split at hsome
  · exact absurd hsome (by simp)
  next hgate =>
    rw [not_or, not_lt] at hgate
    obtain ⟨ha0, hbody⟩ := hgate
    have hapos : 0 < a := lt_of_le_of_ne (atrAt_nonneg bars i a ha) (Ne.symm ha0)
    have hratio : zone_atr_min ≤ r.body / a := by
      rw [le_div_iff hapos]
      linarith [hbody]
    have hrv : ValidBar r := hv r (List.getElem?_mem hb)
    split at hsome <;>
      simp only [Option.some.injEq] at hsome <;> subst hsome
    · exact ⟨le_trans hrv.2 (min_le_left _ _),
        i, r, a, hb, ha, hapos, hratio, rfl⟩
    · exact ⟨le_trans (le_max_left _ _) hrv.1,
        i, r, a, hb, ha, hapos, hratio, rfl⟩

/-- Claim C7's strict inequality is wrong on the code: on `exZBars` with
minimum `3/2` a zone is emitted whose strength equals the minimum exactly
(the gate is `Body < ATR*min`, a non-strict pass). -/
theorem zone_strength_equal_minimum :
    ¬ ∀ z ∈ detectZones exZBars (3/2), 3/2 < z.strength := by
  decide!

/-- Witness for C7 on the concrete series `exZBars`: the emitted zone
`exZone` satisfies the amended invariants. -/
theorem zone_bounds_and_strength_witness :
    exZone.zone_bottom ≤ exZone.zone_top ∧
    ∃ i r a, exZBars[i]? = some r ∧ atrAt exZBars i = some a ∧ 0 < a ∧
      (3/2 : ℚ) ≤ r.body / a ∧ exZone.strength = pyRound 2 (r.body / a) :=
  zone_bounds_and_strength exZBars (3/2) (by decide!) exZone (by decide!)

/-- The `first_hit` update of one simulation step, flattened: an already
set label is kept; otherwise the stop-loss check runs first, then 1R. -/
theorem simStep_first_hit (direction : Direction) (entry sl risk : ℚ)
    (st : SimState) (c : Bar) :
    (simStep direction entry sl risk st c).first_hit =
      (if st.first_hit.isSome then st.first_hit
       else if slTouch direction sl c && !st.hit_sl then some Hit.SL
       else if oneRTouch direction entry risk c && !st.hit_1r then some Hit.oneR
       else none) := by
  rcases hfh : st.first_hit with _ | h <;>
    cases hsl : slTouch direction sl c <;>
      cases hone : oneRTouch direction entry risk c <;>
        cases hhsl : st.hit_sl <;> cases hh1 : st.hit_1r <;>
          simp [simStep, hfh, hsl, hone, hhsl, hh1]

/-- The `hit_sl` flag after one simulation step. -/
theorem simStep_hit_sl (direction : Direction) (entry sl risk : ℚ)
    (st : SimState) (c : Bar) :
    (simStep direction entry sl risk st c).hit_sl =
      (st.hit_sl || slTouch direction sl c) := by
  simp [simStep]

/-- The `hit_1r` flag after one simulation step. -/
theorem simStep_hit_1r (direction : Direction) (entry sl risk : ℚ)
    (st : SimState) (c : Bar) :
    (simStep direction entry sl risk st c).hit_1r =
      (st.hit_1r || oneRTouch direction entry risk c) := by
  simp [simStep]

/-- Unfolding of `firstTouchIdx` on a nonempty window. -/
theorem firstTouchIdx_cons (p : Bar → Bool) (c : Bar) (w : List Bar) :
    firstTouchIdx p (c :: w) =
      (if p c then some 0 else (firstTouchIdx p w).map fun j => j + 1) := rfl

/-- `specFirstHit` on a candle touching the stop-loss is the stop-loss,
whatever else the candle or the rest of the window touches. -/
theorem specFirstHit_cons_sl (direction : Direction) (entry sl risk : ℚ)
    (c : Bar) (w : List Bar) (h : slTouch direction sl c = true) :
    specFirstHit direction entry sl risk (c :: w) = some Hit.SL := by
  unfold specFirstHit
  rw [firstTouchIdx_cons, firstTouchIdx_cons, h]
  simp only [if_true]
  cases honeT : oneRTouch direction entry risk c <;>
    simp only [honeT, Bool.false_eq_true, if_false, if_true]
  · rcases hB : firstTouchIdx (oneRTouch direction entry risk) w with _ | b <;>
      simp [hB]
  · simp

/-- `specFirstHit` on a candle touching only 1R is 1R. -/
theorem specFirstHit_cons_oneR (direction : Direction) (entry sl risk : ℚ)
    (c : Bar) (w : List Bar) (hsl : slTouch direction sl c = false)
    (hone : oneRTouch direction entry risk c = true) :
    specFirstHit direction entry sl risk (c :: w) = some Hit.oneR := by
  unfold specFirstHit
  rw [firstTouchIdx_cons, firstTouchIdx_cons, hsl, hone]
  simp only [Bool.false_eq_true, if_false, if_true]
  rcases hA : firstTouchIdx (slTouch direction sl) w with _ | a <;> simp [hA]

/-- `specFirstHit` skips a candle touching neither level. -/
theorem specFirstHit_cons_none (direction : Direction) (entry sl risk : ℚ)
    (c : Bar) (w : List Bar) (hsl : slTouch direction sl c = false)
    (hone : oneRTouch direction entry risk c = false) :
    specFirstHit direction entry sl risk (c :: w) =
      specFirstHit direction entry sl risk w := by
  unfold specFirstHit
  rw [firstTouchIdx_cons, firstTouchIdx_cons, hsl, hone]
  simp only [Bool.false_eq_true, if_false]
  rcases hA : firstTouchIdx (slTouch direction sl) w with _ | a <;>
    rcases hB : firstTouchIdx (oneRTouch direction entry risk) w with _ | b <;>
      simp [hA, hB, Nat.add_le_add_iff_right]

/-- The fold of the outcome loop computes the spec-side first hit, for
any start state whose hit flags are consistent with its label. -/
theorem sim_fh_aux (direction : Direction) (entry sl risk : ℚ) :
    ∀ (w : List Bar) (st : SimState),
      (st.hit_sl = true → st.first_hit ≠ none) →
      (st.hit_1r = true → st.first_hit ≠ none) →
      (w.foldl (simStep direction entry sl risk) st).first_hit =
        (match st.first_hit with
         | some h => some h
         | none => specFirstHit direction entry sl risk w) := by
  intro w
  induction w with
  | nil =>
    intro st _ _
    rcases hfh : st.first_hit with _ | h <;> simp [specFirstHit, firstTouchIdx, hfh]
  | cons c w ih =>
    intro st hsl h1r
    rw [List.foldl_cons]
    rcases hfh : st.first_hit with _ | h
    · have hslf : st.hit_sl = false := by
        cases hh : st.hit_sl
        · rfl
        · exact absurd hfh (hsl hh)
      have h1f : st.hit_1r = false := by
        cases hh : st.hit_1r
        · rfl
        · exact absurd hfh (h1r hh)
      cases hslT : slTouch direction sl c
      · cases honeT : oneRTouch direction entry risk c
        · have hfh' : (simStep direction entry sl risk st c).first_hit = none := by
            rw [simStep_first_hit]
            simp [hfh, hslT, honeT]
          rw [ih _ (by rw [simStep_hit_sl]; simp [hslf, hslT, hfh'])
              (by rw [simStep_hit_1r]; simp [h1f, honeT, hfh'])]
          simp only [hfh']
          exact (specFirstHit_cons_none direction entry sl risk c w hslT honeT).symm
        · have hfh' : (simStep direction entry sl risk st c).first_hit =
              some Hit.oneR := by
            rw [simStep_first_hit]
            simp [hfh, hslT, honeT, h1f]
          rw [ih _ (by rw [simStep_hit_sl]; simp [hfh'])
              (by rw [simStep_hit_1r]; simp [hfh'])]
          simp only [hfh']
          exact (specFirstHit_cons_oneR direction entry sl risk c w hslT honeT).symm
      · have hfh' : (simStep direction entry sl risk st c).first_hit =
            some Hit.SL := by
          rw [simStep_first_hit]
          simp [hfh, hslT, hslf]
        rw [ih _ (by rw [simStep_hit_sl]; simp [hfh'])
            (by rw [simStep_hit_1r]; simp [hfh'])]
        simp only [hfh']
        exact (specFirstHit_cons_sl direction entry sl risk c w hslT).symm
    · have hfh' : (simStep direction entry sl risk st c).first_hit = some h := by
        rw [simStep_first_hit]
        simp [hfh]
      rw [ih _ (by rw [hfh']; simp) (by rw [hfh']; simp)]
      simp only [hfh']

/-- Claim C2: the outcome simulation used for every accepted Setup labels
`first_hit` with whichever of stop-loss touch and 1R touch occurs on the
chronologically earlier candle of the lookahead window, and when both are
touchable on the same candle the stop-loss check runs first, so the
stop-loss wins the tie. -/
theorem first_hit_earliest_touch_sl_priority (direction : Direction)
    (entry sl risk : ℚ) (window : List Bar) :
    (simulate direction entry sl risk window).first_hit =
      specFirstHit direction entry sl risk window := by
  unfold simulate
  rw [sim_fh_aux direction entry sl risk window _ (by simp) (by simp)]

/-- One simulation step preserves "a 1R label implies the 1R flag". -/
theorem simStep_oneR_flag (direction : Direction) (entry sl risk : ℚ)
    (st : SimState) (c : Bar)
    (hinv : st.first_hit = some Hit.oneR → st.hit_1r = true) :
    (simStep direction entry sl risk st c).first_hit = some Hit.oneR →
      (simStep direction entry sl risk st c).hit_1r = true := by
  intro h
  rw [simStep_first_hit] at h
  rw [simStep_hit_1r]
  rcases hfh : st.first_hit with _ | h0
  · rw [hfh] at h
    simp only [Option.isSome_none, Bool.false_eq_true, if_false] at h
    by_cases hslc : (slTouch direction sl c && !st.hit_sl) = true
    · rw [if_pos hslc] at h
      exact absurd h (by simp)
    · rw [if_neg hslc] at h
      by_cases honec : (oneRTouch direction entry risk c && !st.hit_1r) = true
      · rcases Bool.and_eq_true_iff.mp honec with ⟨h1, _⟩
        simp [h1]
      · rw [if_neg honec] at h
        exact absurd h (by simp)
  · rw [hfh] at h
    simp only [Option.isSome_some, if_true] at h
    rw [h] at hfh
    simp [hinv hfh]

/-- A 1R `first_hit` of the whole simulation implies the `hit_1r` flag. -/
theorem simulate_oneR_flag (direction : Direction) (entry sl risk : ℚ) :
    ∀ (w : List Bar) (st : SimState),
      (st.first_hit = some Hit.oneR → st.hit_1r = true) →
      (w.foldl (simStep direction entry sl risk) st).first_hit = some Hit.oneR →
      (w.foldl (simStep direction entry sl risk) st).hit_1r = true := by
  intro w
  induction w with
  | nil => exact fun st hinv h => hinv h
  | cons c w ih =>
    intro st hinv h
    rw [List.foldl_cons] at h ⊢
    exact ih _ (simStep_oneR_flag direction entry sl risk st c hinv) h

/-- Inversion of the candidate gates: an accepted anchor yields the four
candles, the breakout direction, a positive risk and the record built by
`mkSetup`. -/
theorem setupAt_some_elim (bars : List Bar) (brt am : ℚ) (i : ℕ) (s : Setup)
    (h : setupAt bars brt am i = some s) :
    ∃ c1 c2 c3 c4 direction,
      bars[i]? = some c1 ∧ bars[i+1]? = some c2 ∧ bars[i+2]? = some c3 ∧
      bars[i+3]? = some c4 ∧
      (if c2.High < c3.Close then some Direction.LONG
       else if c3.Close < c2.Low then some Direction.SHORT
       else none) = some direction ∧
      ¬ (setupRisk c2 c3 direction ≤ 0) ∧
      s = mkSetup bars i c1 c2 c3 c4 direction := by
  unfold setupAt at h
  rcases h1 : bars[i]? with _ | c1
  · simp [h1] at h
  rcases h2 : bars[i+1]? with _ | c2
  · simp [h1, h2] at h
  rcases h3 : bars[i+2]? with _ | c3
  · simp [h1, h2, h3] at h
  rcases h4 : bars[i+3]? with _ | c4
  · simp [h1, h2, h3, h4] at h
  simp only [h1, h2, h3, h4] at h
  rcases ha : atrAt bars i with _ | atr <;> simp only [ha] at h
  · exact absurd h (by simp)
  split at h
  · exact absurd h (by simp)
  split at h
  · exact absurd h (by simp)
  split at h
  · exact absurd h (by simp)
  split at h
  · exact absurd h (by simp)
  rcases hd : (if c2.High < c3.Close then some Direction.LONG
      else if c3.Close < c2.Low then some Direction.SHORT
      else none) with _ | direction <;> simp only [hd] at h
  · exact absurd h (by simp)
  by_cases hrisk : setupRisk c2 c3 direction ≤ 0
  · rw [if_pos hrisk] at h
    exact absurd h (by simp)
  · rw [if_neg hrisk] at h
    exact ⟨c1, c2, c3, c4, direction, rfl, rfl, rfl, rfl, hd, hrisk,
      (Option.some.inj h).symm⟩

/-- The direction stored by `mkSetup`. -/
theorem mkSetup_direction (bars : List Bar) (i : ℕ) (c1 c2 c3 c4 : Bar)
    (d : Direction) : (mkSetup bars i c1 c2 c3 c4 d).direction = d := by
  simp [mkSetup]

/-- The C2/C3 price fields stored by `mkSetup`. -/
theorem mkSetup_prices (bars : List Bar) (i : ℕ) (c1 c2 c3 c4 : Bar)
    (d : Direction) :
    (mkSetup bars i c1 c2 c3 c4 d).c2_high = c2.High ∧
    (mkSetup bars i c1 c2 c3 c4 d).c2_low = c2.Low ∧
    (mkSetup bars i c1 c2 c3 c4 d).c3_close = c3.Close := by
  refine ⟨?_, ?_, ?_⟩ <;> simp [mkSetup]

/-- Claim C5: an accepted Setup is LONG exactly when C3's close is
strictly above C2's high and SHORT exactly when it is strictly below C2's
low; and an anchor whose C3 close lies inside C2's range or exactly on
either boundary produces no Setup. -/
theorem breakout_direction_strict (bars : List Bar) (brt am : ℚ) :
    (∀ s ∈ detectSetups bars brt am,
      (s.direction = Direction.LONG ↔ s.c2_high < s.c3_close) ∧
      (s.direction = Direction.SHORT ↔ s.c3_close < s.c2_low)) ∧
    (∀ i c2 c3, bars[i+1]? = some c2 → bars[i+2]? = some c3 →
      c2.Low ≤ c3.Close → c3.Close ≤ c2.High →
      setupAt bars brt am i = none) := by
  constructor
  · intro s hs
    unfold detectSetups at hs
    split at hs
    · exact absurd hs (by simp)
    rcases List.mem_filterMap.mp hs with ⟨i, _, hsome⟩
    rcases setupAt_some_elim bars brt am i s hsome with
      ⟨c1, c2, c3, c4, d, _, _, _, _, hd, hrisk, hsm⟩
    subst hsm
    rw [mkSetup_direction, (mkSetup_prices bars i c1 c2 c3 c4 d).1,
      (mkSetup_prices bars i c1 c2 c3 c4 d).2.1,
      (mkSetup_prices bars i c1 c2 c3 c4 d).2.2]
    by_cases hb1 : c2.High < c3.Close
    · rw [if_pos hb1] at hd
      have hdL : d = Direction.LONG := (Option.some.inj hd).symm
      subst hdL
      rw [show setupRisk c2 c3 Direction.LONG = c3.Close - c2.Low by
        simp [setupRisk, setupSL]] at hrisk
      rw [not_le] at hrisk
      constructor
      · exact ⟨fun _ => hb1, fun _ => rfl⟩
      · constructor
        · intro hcontra
          exact absurd hcontra (by simp)
        · intro hcontra
          linarith
    · rw [if_neg hb1] at hd
      by_cases hb2 : c3.Close < c2.Low
      · rw [if_pos hb2] at hd
        have hdS : d = Direction.SHORT := (Option.some.inj hd).symm
        subst hdS
        rw [show setupRisk c2 c3 Direction.SHORT = c2.High - c3.Close by
          simp [setupRisk, setupSL]] at hrisk
        rw [not_le] at hrisk
        constructor
        · constructor
          · intro hcontra
            exact absurd hcontra (by simp)
          · intro hcontra
            exact absurd hcontra hb1
        · exact ⟨fun _ => hb2, fun _ => rfl⟩
      · rw [if_neg hb2] at hd
        exact absurd hd (by simp)
  · intro i c2 c3 h2 h3 hlo hhi
    unfold setupAt
    rcases hb0 : bars[i]? with _ | c1
    · simp
    rcases hb3 : bars[i+3]? with _ | c4
    · simp [hb0, h2, h3, hb3]
    simp only [hb0, h2, h3, hb3]
    rcases ha : atrAt bars i with _ | atr <;> simp only [ha]
    have hdir : (if c2.High < c3.Close then some Direction.LONG
        else if c3.Close < c2.Low then some Direction.SHORT
        else none) = (none : Option Direction) := by
      rw [if_neg (not_lt.mpr hhi), if_neg (not_lt.mpr hlo)]
    simp only [hdir]
    split_ifs <;> rfl

/-- Claim C3: for every accepted Setup the win label is true when the
first hit was 1R (the 1R flag is then necessarily set), false when it was
the stop-loss, and when neither level was touched in the window it equals
whether the recorded C4 close in risk units (`c4_close_r`) is strictly
positive. -/
theorem win_label_first_hit (bars : List Bar) (brt am : ℚ) (s : Setup)
    (h : s ∈ detectSetups bars brt am) :
    s.win_1r = true ↔
      (s.first_hit = some Hit.oneR ∨
        (s.first_hit = none ∧ 0 < s.c4_close_r)) := by
  unfold detectSetups at h
  split at h
  · exact absurd h (by simp)
  rcases List.mem_filterMap.mp h with ⟨i, _, hsome⟩
  rcases setupAt_some_elim bars brt am i s hsome with
    ⟨c1, c2, c3, c4, d, _, _, _, _, _, _, hsm⟩
  subst hsm
  have hwin : (mkSetup bars i c1 c2 c3 c4 d).win_1r =
      (match (setupSim bars i c2 c3 d).first_hit with
       | some Hit.oneR => (setupSim bars i c2 c3 d).hit_1r
       | some Hit.SL => false
       | none =>
         decide (0 < (candle_result c4 c3.Close (setupRisk c2 c3 d) d).close_r)) :=
    rfl
  have hfh : (mkSetup bars i c1 c2 c3 c4 d).first_hit =
      (setupSim bars i c2 c3 d).first_hit := rfl
  have hc4 : (mkSetup bars i c1 c2 c3 c4 d).c4_close_r =
      (candle_result c4 c3.Close (setupRisk c2 c3 d) d).close_r := rfl
  rw [hwin, hfh, hc4]
  rcases hf : (setupSim bars i c2 c3 d).first_hit with _ | hh
  · simp
  · cases hh
    · simp
    · have h1 : (setupSim bars i c2 c3 d).hit_1r = true :=
        simulate_oneR_flag d c3.Close (setupSL c2 d) (setupRisk c2 c3 d)
          (setupWindow bars i) ⟨false, false, false, false, none, 0, 0⟩
          (by simp) hf
      simp [h1]

/-- Witness for C3: the concrete setup detected on `exBars` (whose first
hit is 1R and whose label is a win). -/
theorem win_label_first_hit_witness :
    exSetup.win_1r = true ↔
      (exSetup.first_hit = some Hit.oneR ∨
        (exSetup.first_hit = none ∧ 0 < exSetup.c4_close_r)) :=
  win_label_first_hit exBars (13/20) (13/10) exSetup (by decide!)

/-- Witness for C5: the direction double-iff evaluated on the concrete
setup of `exBars`, and the boundary series `exBarsBoundary` (C3 closing
exactly at C2's high) producing no setup at its anchor. -/
theorem breakout_direction_strict_witness :
    ((exSetup.direction = Direction.LONG ↔ exSetup.c2_high < exSetup.c3_close) ∧
     (exSetup.direction = Direction.SHORT ↔ exSetup.c3_close < exSetup.c2_low)) ∧
    setupAt exBarsBoundary (13/20) (13/10) 14 = none :=
  ⟨(breakout_direction_strict exBars (13/20) (13/10)).1 exSetup (by decide!),
   (breakout_direction_strict exBarsBoundary (13/20) (13/10)).2 14
     ⟨15, 11, 59/5, 21/2, 23/2⟩ ⟨16, 23/2, 12, 57/5, 59/5⟩
     (by decide!) (by decide!) (by decide!) (by decide!)⟩

/-- A well-formed zero-range bar has zero body. -/
theorem body_eq_zero_of_range_zero (b : Bar) (hv : ValidBar b)
    (h : b.range = 0) : b.body = 0 := by
  unfold Bar.range at h
  unfold Bar.body
  have h1 : b.Open ≤ b.High := le_trans (le_max_left _ _) hv.1
  have h2 : b.Close ≤ b.High := le_trans (le_max_right _ _) hv.1
  have h3 : b.Low ≤ b.Open := le_trans hv.2 (min_le_left _ _)
  have h4 : b.Low ≤ b.Close := le_trans hv.2 (min_le_right _ _)
  rw [show b.Close - b.Open = 0 by linarith]
  exact abs_zero

/-- A NaN body ratio means a zero-range bar. -/
theorem range_zero_of_bodyRatio_none (b : Bar) (h : bodyRatio b = none) :
    b.range = 0 := by
  unfold bodyRatio at h
  split at h
  · assumption
  · exact absurd h (by simp)

/-- One diagnostics step preserves the funnel inequalities. -/
theorem diagStep_funnel_inv (bars : List Bar) (brt am : ℚ) (d : Diag) (i : ℕ)
    (hd : d.pass_body_ratio ≤ d.total_scanned ∧
      d.pass_body_atr ≤ d.total_scanned ∧
      d.pass_both_c1 ≤ d.pass_body_ratio ∧
      d.pass_both_c1 ≤ d.pass_body_atr ∧
      d.pass_inside_bar ≤ d.pass_both_c1 ∧
      d.pass_c3_breakout ≤ d.pass_inside_bar ∧
      d.pass_valid_risk ≤ d.pass_c3_breakout) :
    (diagStep bars brt am d i).pass_body_ratio ≤
        (diagStep bars brt am d i).total_scanned ∧
    (diagStep bars brt am d i).pass_body_atr ≤
        (diagStep bars brt am d i).total_scanned ∧
    (diagStep bars brt am d i).pass_both_c1 ≤
        (diagStep bars brt am d i).pass_body_ratio ∧
    (diagStep bars brt am d i).pass_both_c1 ≤
        (diagStep bars brt am d i).pass_body_atr ∧
    (diagStep bars brt am d i).pass_inside_bar ≤
        (diagStep bars brt am d i).pass_both_c1 ∧
    (diagStep bars brt am d i).pass_c3_breakout ≤
        (diagStep bars brt am d i).pass_inside_bar ∧
    (diagStep bars brt am d i).pass_valid_risk ≤
        (diagStep bars brt am d i).pass_c3_breakout := by
  obtain ⟨h1, h2, h3, h4, h5, h6, h7⟩ := hd
  simp only [diagStep]
  repeat' split
  all_goals simp_all
  all_goals omega

/-- One diagnostics step counts `pass_valid_risk` exactly when the
detector's gates accept the same anchor, for well-formed bars and a
positive ATR multiplier (the two passes differ only on the NaN body
ratio of a zero-range C1, which both reject under these hypotheses). -/
theorem diagStep_valid_eq (bars : List Bar) (brt am : ℚ)
    (hv : ValidBars bars) (ham : 0 < am) (d : Diag) (i : ℕ)
    (hlen : i + 3 < bars.length) :
    (diagStep bars brt am d i).pass_valid_risk =
      d.pass_valid_risk + ((setupAt bars brt am i).isSome).toNat := by
  have h0 : i < bars.length := by omega
  have h1 : i + 1 < bars.length := by omega
  have h2 : i + 2 < bars.length := by omega
  have hc1 : bars[i]? = some bars[i] := List.getElem?_eq_getElem h0
  have hc2 : bars[i+1]? = some bars[i+1] := List.getElem?_eq_getElem h1
  have hc3 : bars[i+2]? = some bars[i+2] := List.getElem?_eq_getElem h2
  have hc4 : bars[i+3]? = some bars[i+3] := List.getElem?_eq_getElem hlen
  unfold diagStep setupAt
  rw [hc1, hc2, hc3, hc4]
  rcases ha : atrAt bars i with _ | a <;> simp only []
  · simp
  by_cases ha0 : a = 0
  · simp [ha0]
  rw [if_neg ha0, if_neg ha0]
  have hapos : 0 < a := lt_of_le_of_ne (atrAt_nonneg bars i a ha) (Ne.symm ha0)
  rcases hbr : bodyRatio bars[i] with _ | br <;> simp only []
  · have hb0 : bars[i].body = 0 :=
      body_eq_zero_of_range_zero bars[i] (hv bars[i] (List.getElem_mem h0))
        (range_zero_of_bodyRatio_none bars[i] hbr)
    have hgate : bars[i].body < a * am := by
      rw [hb0]
      exact mul_pos hapos ham
    simp [hgate, not_le.mpr hgate]
  · by_cases hbrt : br < brt
    · simp [hbrt, not_le.mpr hbrt]
      split <;> simp
    · have hbrt2 : brt ≤ br := not_lt.mp hbrt
      by_cases hbody : bars[i].body < a * am
      · simp [hbrt, hbrt2, hbody, not_le.mpr hbody]
      · have hbody2 : a * am ≤ bars[i].body := not_lt.mp hbody
        by_cases hins : bars[i+1].High ≤ bars[i].High ∧
            bars[i].Low ≤ bars[i+1].Low
        · rcases hdir : (if bars[i+1].High < bars[i+2].Close
              then some Direction.LONG
              else if bars[i+2].Close < bars[i+1].Low
              then some Direction.SHORT else none) with _ | dir
          · simp [hbrt, hbrt2, hbody, hbody2, hins]
          · by_cases hrk : setupRisk bars[i+1] bars[i+2] dir ≤ 0
            · simp [hbrt, hbrt2, hbody, hbody2, hins, hrk, not_lt.mpr hrk]
            · simp [hbrt, hbrt2, hbody, hbody2, hins, hrk, not_le.mp hrk]
        · simp [hbrt, hbrt2, hbody, hbody2, hins]

/-- The diagnostics fold counts `pass_valid_risk` as the number of
anchors the detector's gates accept. -/
theorem diag_fold_valid (bars : List Bar) (brt am : ℚ)
    (hv : ValidBars bars) (ham : 0 < am) :
    ∀ (L : List ℕ), (∀ j ∈ L, j + 3 < bars.length) → ∀ (d : Diag),
      (L.foldl (diagStep bars brt am) d).pass_valid_risk =
        d.pass_valid_risk +
          L.countP (fun j => (setupAt bars brt am j).isSome) := by
  intro L
  induction L with
  | nil =>
    intro _ d
    simp
  | cons j L ih =>
    intro hmem d
    rw [List.foldl_cons, List.countP_cons]
    rw [ih (fun k hk => hmem k (List.mem_cons_of_mem j hk))
      (diagStep bars brt am d j)]
    rw [diagStep_valid_eq bars brt am hv ham d j (hmem j (List.mem_cons_self j L))]
    cases hsp : (setupAt bars brt am j).isSome <;> simp [hsp] <;> omega

/-- Claim C1 (amended): the funnel counts satisfy
`total_scanned ≥ pass_body_ratio`, `total_scanned ≥ pass_body_atr`,
`pass_both_c1 ≤ min(pass_body_ratio, pass_body_atr)` and the chain
`pass_both_c1 ≥ pass_inside_bar ≥ pass_c3_breakout ≥ pass_valid_risk`
(the two middle counters `pass_body_ratio` and `pass_body_atr` count the
two C1 gates independently, so neither bounds the other); and for a
series of well-formed bars and a positive ATR multiplier the final
`pass_valid_risk` equals the number of Setups returned. -/
theorem funnel_bounds_and_agreement (bars : List Bar) (brt am : ℚ) :
    ((detectSetupsWithDiagnostics bars brt am).2.pass_body_ratio ≤
        (detectSetupsWithDiagnostics bars brt am).2.total_scanned ∧
     (detectSetupsWithDiagnostics bars brt am).2.pass_body_atr ≤
        (detectSetupsWithDiagnostics bars brt am).2.total_scanned ∧
     (detectSetupsWithDiagnostics bars brt am).2.pass_both_c1 ≤
        (detectSetupsWithDiagnostics bars brt am).2.pass_body_ratio ∧
     (detectSetupsWithDiagnostics bars brt am).2.pass_both_c1 ≤
        (detectSetupsWithDiagnostics bars brt am).2.pass_body_atr ∧
     (detectSetupsWithDiagnostics bars brt am).2.pass_inside_bar ≤
        (detectSetupsWithDiagnostics bars brt am).2.pass_both_c1 ∧
     (detectSetupsWithDiagnostics bars brt am).2.pass_c3_breakout ≤
        (detectSetupsWithDiagnostics bars brt am).2.pass_inside_bar ∧
     (detectSetupsWithDiagnostics bars brt am).2.pass_valid_risk ≤
        (detectSetupsWithDiagnostics bars brt am).2.pass_c3_breakout) ∧
    (ValidBars bars → 0 < am →
      (detectSetupsWithDiagnostics bars brt am).2.pass_valid_risk =
        (detectSetupsWithDiagnostics bars brt am).1.length) := by
  unfold detectSetupsWithDiagnostics
  by_cases hlen : bars.length < 20
  · rw [if_pos hlen]
    simp [initDiag]
  · rw [if_neg hlen]
    constructor
    · exact foldl_inv (diagStep bars brt am)
        (fun e => e.pass_body_ratio ≤ e.total_scanned ∧
          e.pass_body_atr ≤ e.total_scanned ∧
          e.pass_both_c1 ≤ e.pass_body_ratio ∧
          e.pass_both_c1 ≤ e.pass_body_atr ∧
          e.pass_inside_bar ≤ e.pass_both_c1 ∧
          e.pass_c3_breakout ≤ e.pass_inside_bar ∧
          e.pass_valid_risk ≤ e.pass_c3_breakout)
        (fun e j he => diagStep_funnel_inv bars brt am e j he)
        (List.range' 14 (bars.length - 20)) initDiag (by simp [initDiag])
    · intro hv ham
      rw [diag_fold_valid bars brt am hv ham _
        (by
          intro j hj
          rw [List.mem_range'_1] at hj
          omega)
        initDiag]
      unfold detectSetups
      rw [if_neg hlen]
      rw [List.length_filterMap_eq_countP]
      simp [initDiag]

/-- Claim C1's stated chain is wrong on the code: on `exBarsFunnel` the
single scanned candidate passes the body-vs-ATR gate but fails the
body-ratio gate, so `pass_body_ratio < pass_body_atr`, refuting
`pass_body_ratio ≥ pass_body_atr`. -/
theorem funnel_not_monotone_ratio_atr :
    ¬ ((detectSetupsWithDiagnostics exBarsFunnel (13/20) (1/2)).2.pass_body_atr ≤
       (detectSetupsWithDiagnostics exBarsFunnel (13/20) (1/2)).2.pass_body_ratio) := by
  decide!

/-- Witness for C1's equality part on the concrete series `exBars`. -/
theorem funnel_bounds_and_agreement_witness :
    (detectSetupsWithDiagnostics exBars (13/20) (13/10)).2.pass_valid_risk =
      (detectSetupsWithDiagnostics exBars (13/20) (13/10)).1.length :=
  (funnel_bounds_and_agreement exBars (13/20) (13/10)).2 (by decide!) (by decide!)
